import Mathlib

/-!
Shallow embedding of the budget accounting engine of this repository:

* `budgetCalculator.ts` — percentage validation and dollar allocation
  (`validateBudgetPercentages`, `validateWantsSubcategories`,
  `calculateSubcategories`, `calculateBudget`);
* `spendingAnalyzer.ts` — per-category spending aggregation and status
  (`calculateCategorySpending`);
* `database.ts` — the day-boundary streak state machine
  (`checkAndUpdateStreak`, `checkDailyBudgetAdherence`).

Modelling conventions:

* JS `number` values are modelled as `ℚ`; `parseFloat(x.toFixed(2))` is
  modelled as exact rounding to the nearest cent (`round2`, half up).
* Calendar days are modelled as integers (`ℤ`): `new Date(y, m, d)`
  day-truncation makes every date in the streak logic a calendar day, and
  `setDate(getDate() - 1)` is subtraction of one day.  The two values the
  code derives from `now` — the day-truncated `today` and the first of the
  current month — are passed as explicit `today`/`monthStart` arguments.
* String lower-casing (`toLowerCase`) is modelled over ASCII by `lowerStr`;
  every category key in the program is ASCII.
* The MongoDB round trips are made explicit: `checkAndUpdateStreak` takes
  the stored `UserBudget` and the user's transactions and returns the
  streak it would return together with `Option StreakState`, the write it
  performs (`some s` for the `updateOne` call, `none` when no write
  happens); `applyCheck` is the resulting store state.
-/

namespace Spec2Proof

/-- ASCII lower-casing of one character (model of JS `toLowerCase` on the
ASCII category strings used by the program). -/
def lowerChar (c : Char) : Char :=
  if 'A' ≤ c ∧ c ≤ 'Z' then Char.ofNat (c.toNat + 32) else c

/-- ASCII lower-casing of a string. -/
def lowerStr (s : String) : String := String.mk (s.data.map lowerChar)

/-- `name.replace(/\/.*$/, '')`: the prefix of the string before the first
`'/'` (used to turn `"rent/mortgage"` into `"rent"`). -/
def stripSlash (s : String) : String :=
  String.mk (s.data.takeWhile (fun c => c ≠ '/'))

/-- `parseFloat(x.toFixed(2))`: rounding to the nearest cent, half up. -/
def round2 (x : ℚ) : ℚ := ((⌊x * 100 + 1/2⌋ : ℤ) : ℚ) / 100

/-! ## budgetCalculator.ts -/

/-- `BudgetSubcategory` of budgetCalculator.ts.  `amount` is optional in the
source (`amount?: number`) and set by `calculateSubcategories`. -/
structure BudgetSubcategory where
  name : String
  percentage : ℚ
  amount : Option ℚ := none
deriving Repr, DecidableEq

/-- `BudgetCategory` of budgetCalculator.ts. -/
structure BudgetCategory where
  name : String
  percentage : ℚ
  amount : Option ℚ := none
  subcategories : Option (List BudgetSubcategory) := none
deriving Repr, DecidableEq

/-- The six fixed percentage fields of `BudgetInput.categories`. -/
structure BudgetInputCategories where
  rent : ℚ
  food : ℚ
  bills : ℚ
  savings : ℚ
  investments : ℚ
  wants : ℚ
deriving Repr, DecidableEq

/-- `BudgetInput` of budgetCalculator.ts. -/
structure BudgetInput where
  monthlyIncome : ℚ
  categories : BudgetInputCategories
  wantsSubcategories : Option (List BudgetSubcategory) := none
deriving Repr, DecidableEq

/-- `BudgetResult` of budgetCalculator.ts.  The source omits `errors` on the
valid result (`errors?: string[]`); that absent field is modelled as `[]`. -/
structure BudgetResult where
  monthlyIncome : ℚ
  totalAllocated : ℚ
  unallocated : ℚ
  categories : List BudgetCategory
  isValid : Bool
  errors : List String := []
deriving Repr, DecidableEq

/-- Result type of the two validation helpers of budgetCalculator.ts. -/
structure ValidationResult where
  isValid : Bool
  totalPercentage : ℚ
  errors : List String
deriving Repr, DecidableEq

/-- The two error pushes done for one `Object.entries(categories)` entry in
`validateBudgetPercentages` (negative check first, then the over-100 check,
exactly as in the source loop body). -/
def categoryEntryErrors (key : String) (value : ℚ) : List String :=
  (if value < 0 then [key ++ " percentage cannot be negative"] else []) ++
  (if value > 100 then [key ++ " percentage cannot exceed 100%"] else [])

/-- `validateBudgetPercentages` of budgetCalculator.ts.  Error strings are
built with explicit concatenation in place of the template literals; the
`Object.entries` loop visits the six keys in declaration order. -/
def validateBudgetPercentages (categories : BudgetInputCategories) : ValidationResult :=
  let totalPercentage :=
    categories.rent + categories.food + categories.bills +
    categories.savings + categories.investments + categories.wants
  let errors : List String :=
    (if totalPercentage > 100 then
      ["Total percentage (" ++ toString totalPercentage ++ "%) exceeds 100%"]
     else []) ++
    (if totalPercentage < 0 then ["Total percentage cannot be negative"] else []) ++
    categoryEntryErrors "rent" categories.rent ++
    categoryEntryErrors "food" categories.food ++
    categoryEntryErrors "bills" categories.bills ++
    categoryEntryErrors "savings" categories.savings ++
    categoryEntryErrors "investments" categories.investments ++
    categoryEntryErrors "wants" categories.wants
  { isValid := errors.isEmpty, totalPercentage := totalPercentage, errors := errors }

/-- The error pushes for one wants subcategory at a given index in
`validateWantsSubcategories` (the source condition `!sub.name ||
sub.name.trim() === ''` is equivalent to `sub.name.trim() = ""`). -/
def subEntryErrors (index : ℕ) (sub : BudgetSubcategory) : List String :=
  (if sub.percentage < 0 then
    ["Subcategory \"" ++ sub.name ++ "\" has negative percentage"] else []) ++
  (if sub.percentage > 100 then
    ["Subcategory \"" ++ sub.name ++ "\" percentage exceeds 100%"] else []) ++
  (if sub.name.trim = "" then
    ["Subcategory at index " ++ toString index ++ " has no name"] else [])

/-- `validateWantsSubcategories` of budgetCalculator.ts. -/
def validateWantsSubcategories (subcategories : List BudgetSubcategory) : ValidationResult :=
  let totalPercentage := subcategories.foldl (fun sum sub => sum + sub.percentage) 0
  let errors : List String :=
    (if totalPercentage > 100 then
      ["Wants subcategories total (" ++ toString totalPercentage ++ "%) exceeds 100%"]
     else []) ++
    (subcategories.enum.map (fun p => subEntryErrors p.1 p.2)).flatten
  { isValid := errors.isEmpty, totalPercentage := totalPercentage, errors := errors }

/-- `calculateSubcategories` of budgetCalculator.ts. -/
def calculateSubcategories (parentAmount : ℚ) (subcategories : List BudgetSubcategory) :
    List BudgetSubcategory :=
  subcategories.map (fun sub =>
    { sub with amount := some (round2 (parentAmount * sub.percentage / 100)) })

/-- The error-collection phase of `calculateBudget` (the `errors` array the
source accumulates with its three `push` blocks, in push order). -/
def calculateBudgetErrors (input : BudgetInput) : List String :=
  let incomeErrors : List String :=
    if input.monthlyIncome ≤ 0 then ["Monthly income must be greater than 0"] else []
  let categoryValidation := validateBudgetPercentages input.categories
  let categoryErrors : List String :=
    if categoryValidation.isValid then [] else categoryValidation.errors
  let wantsErrors : List String :=
    match input.wantsSubcategories with
    | some subs =>
        if subs.length > 0 then
          let wantsValidation := validateWantsSubcategories subs
          if wantsValidation.isValid then [] else wantsValidation.errors
        else []
    | none => []
  incomeErrors ++ categoryErrors ++ wantsErrors

/-- `calculateBudget` of budgetCalculator.ts. -/
def calculateBudget (input : BudgetInput) : BudgetResult :=
  let errors := calculateBudgetErrors input
  if errors.length > 0 then
    { monthlyIncome := input.monthlyIncome
      totalAllocated := 0
      unallocated := 0
      categories := []
      isValid := false
      errors := errors }
  else
    let baseCategories : List BudgetCategory :=
      [ { name := "Rent/Mortgage", percentage := input.categories.rent
          amount := some (round2 (input.monthlyIncome * input.categories.rent / 100)) },
        { name := "Food", percentage := input.categories.food
          amount := some (round2 (input.monthlyIncome * input.categories.food / 100)) },
        { name := "Bills", percentage := input.categories.bills
          amount := some (round2 (input.monthlyIncome * input.categories.bills / 100)) },
        { name := "Savings", percentage := input.categories.savings
          amount := some (round2 (input.monthlyIncome * input.categories.savings / 100)) },
        { name := "Investments", percentage := input.categories.investments
          amount := some (round2 (input.monthlyIncome * input.categories.investments / 100)) } ]
    let wantsAmount := round2 (input.monthlyIncome * input.categories.wants / 100)
    let wantsCategory : BudgetCategory :=
      { name := "Wants", percentage := input.categories.wants
        amount := some wantsAmount
        subcategories :=
          match input.wantsSubcategories with
          | some subs =>
              if subs.length > 0 then some (calculateSubcategories wantsAmount subs) else none
          | none => none }
    let categories := baseCategories ++ [wantsCategory]
    let totalAllocated :=
      round2 (categories.foldl (fun sum cat => sum + cat.amount.getD 0) 0)
    let unallocated := round2 (input.monthlyIncome - totalAllocated)
    { monthlyIncome := input.monthlyIncome
      totalAllocated := totalAllocated
      unallocated := unallocated
      categories := categories
      isValid := true }

/-- Sum of the top-level category amounts of a budget result (the quantity
`sum(category.amount)` of the spec; missing amounts read as `0`, matching
the `cat.amount || 0` reads in the source). -/
def sumAmounts (cats : List BudgetCategory) : ℚ :=
  (cats.map (fun c => c.amount.getD 0)).sum

/-- A string mentions `"100%"`: it has `"100%"` as a contiguous substring. -/
def mentions100 (s : String) : Prop := ∃ a b : String, s = a ++ ("100%" ++ b)

/-! ## spendingAnalyzer.ts -/

/-- `BudgetTransaction` of database.ts, restricted to the fields the engine
reads: `category`, `amount`, and the transaction's calendar day (`date`
truncated to a day, as every consumer of `date` in the engine does). -/
structure BudgetTransaction where
  category : String
  amount : ℚ
  day : ℤ
deriving Repr, DecidableEq

/-- The `spendingByCategory` record of `calculateCategorySpending`: one
running total per canonical category key. -/
structure SpendingByCategory where
  rent : ℚ := 0
  food : ℚ := 0
  bills : ℚ := 0
  savings : ℚ := 0
  investments : ℚ := 0
  wants : ℚ := 0
deriving Repr, DecidableEq

/-- One iteration of the `transactions.forEach` loop: add `amt` to the
bucket named by the lower-cased category `key` when `key` is one of the six
canonical keys (`hasOwnProperty`), and to `wants` otherwise. -/
def addToCategory (s : SpendingByCategory) (key : String) (amt : ℚ) : SpendingByCategory :=
  if key = "rent" then { s with rent := s.rent + amt }
  else if key = "food" then { s with food := s.food + amt }
  else if key = "bills" then { s with bills := s.bills + amt }
  else if key = "savings" then { s with savings := s.savings + amt }
  else if key = "investments" then { s with investments := s.investments + amt }
  else if key = "wants" then { s with wants := s.wants + amt }
  else { s with wants := s.wants + amt }

/-- The whole `transactions.forEach` aggregation loop. -/
def tallySpending (transactions : List BudgetTransaction) : SpendingByCategory :=
  transactions.foldl (fun s t => addToCategory s (lowerStr t.category) t.amount) {}

/-- `Object.values(spendingByCategory).reduce((sum, val) => sum + val, 0)`. -/
def totalOfSpending (s : SpendingByCategory) : ℚ :=
  s.rent + s.food + s.bills + s.savings + s.investments + s.wants

/-- `spendingByCategory[categoryKey] || 0`: reading a bucket by key, `0`
for a key that is not a canonical bucket (an `undefined` property read). -/
def lookupSpending (s : SpendingByCategory) (key : String) : ℚ :=
  if key = "rent" then s.rent
  else if key = "food" then s.food
  else if key = "bills" then s.bills
  else if key = "savings" then s.savings
  else if key = "investments" then s.investments
  else if key = "wants" then s.wants
  else 0

/-- `CategorySpending` of spendingAnalyzer.ts; `status` keeps the source's
string values `"under" | "at" | "over"`. -/
structure CategorySpending where
  category : String
  spent : ℚ
  budget : ℚ
  remaining : ℚ
  percentageUsed : ℚ
  status : String
deriving Repr, DecidableEq

/-- `SpendingAnalysis` of spendingAnalyzer.ts. -/
structure SpendingAnalysis where
  totalSpent : ℚ
  totalBudget : ℚ
  categories : List CategorySpending
  overBudgetCategories : List String
  percentageOfBudgetUsed : ℚ
deriving Repr, DecidableEq

/-- The status band of `calculateCategorySpending`. -/
def statusFor (percentageUsed : ℚ) : String :=
  if percentageUsed ≥ 100 then "over"
  else if percentageUsed ≥ 95 then "at"
  else "under"

/-- The body of the `budgetResult.categories.map` callback in
`calculateCategorySpending`. -/
def analyzeCategory (spendingByCategory : SpendingByCategory) (cat : BudgetCategory) :
    CategorySpending :=
  let categoryKey := stripSlash (lowerStr cat.name)
  let spent := lookupSpending spendingByCategory categoryKey
  let budget := cat.amount.getD 0
  let remaining := budget - spent
  let percentageUsed := if budget > 0 then spent / budget * 100 else 0
  { category := cat.name
    spent := spent
    budget := budget
    remaining := remaining
    percentageUsed := percentageUsed
    status := statusFor percentageUsed }

/-- `calculateCategorySpending` of spendingAnalyzer.ts. -/
def calculateCategorySpending (transactions : List BudgetTransaction)
    (budgetResult : BudgetResult) : SpendingAnalysis :=
  let spendingByCategory := tallySpending transactions
  let totalSpent := totalOfSpending spendingByCategory
  let categories := budgetResult.categories.map (analyzeCategory spendingByCategory)
  let overBudgetCategories :=
    (categories.filter (fun cat => cat.status = "over")).map (fun cat => cat.category)
  { totalSpent := totalSpent
    totalBudget := budgetResult.totalAllocated
    categories := categories
    overBudgetCategories := overBudgetCategories
    percentageOfBudgetUsed :=
      if budgetResult.totalAllocated > 0 then totalSpent / budgetResult.totalAllocated * 100
      else 0 }

/-! ## database.ts — the streak state machine -/

/-- The persisted `streak` sub-document of a budget document. -/
structure StreakState where
  currentStreak : ℤ
  longestStreak : ℤ
  lastChecked : ℤ
  monthlyResetDate : ℤ
deriving Repr, DecidableEq

/-- A stored budget document, restricted to the fields the streak logic
reads: `monthlyIncome` and the optional `streak` record. -/
structure UserBudget where
  monthlyIncome : ℚ
  streak : Option StreakState
deriving Repr, DecidableEq

/-- `checkDailyBudgetAdherence` of database.ts: daily budget is
`monthlyIncome / 30`, the day's spend is the sum of the amounts of the
transactions dated within the given day, and adherence is
`totalSpent <= dailyBudget`. -/
def checkDailyBudgetAdherence (budget : UserBudget) (transactions : List BudgetTransaction)
    (date : ℤ) : Bool :=
  let dayTransactions := transactions.filter (fun t => t.day = date)
  let dailyBudget := budget.monthlyIncome / 30
  let totalSpent := dayTransactions.foldl (fun sum t => sum + t.amount) 0
  totalSpent ≤ dailyBudget

/-- `checkAndUpdateStreak` of database.ts as a pure transition.  Inputs:
the stored budget document, the user's transactions, and the two values
derived from `now` (`today`, day-truncated, and `monthStart`, the first of
the current month).  Output: the streak the function returns, paired with
the write it performs on the `budgets` collection (`some s` for the
`updateOne` inside the new-day branch, `none` when no write happens). -/
def checkAndUpdateStreak (budget : UserBudget) (transactions : List BudgetTransaction)
    (today monthStart : ℤ) : StreakState × Option StreakState :=
  let streak0 : StreakState :=
    match budget.streak with
    | some s => s
    | none =>
        { currentStreak := 0, longestStreak := 0
          lastChecked := today, monthlyResetDate := monthStart }
  let lastCheckedDate := streak0.lastChecked
  let streak1 :=
    if monthStart > streak0.monthlyResetDate then
      { streak0 with monthlyResetDate := monthStart }
    else streak0
  if today > lastCheckedDate then
    let yesterday := today - 1
    let wasWithinBudget := checkDailyBudgetAdherence budget transactions yesterday
    let streak2 :=
      if wasWithinBudget then
        let cur := streak1.currentStreak + 1
        { streak1 with
            currentStreak := cur
            longestStreak :=
              if cur > streak1.longestStreak then cur else streak1.longestStreak }
      else if lastCheckedDate < yesterday then
        { streak1 with currentStreak := 0 }
      else streak1
    let streak3 := { streak2 with lastChecked := today }
    (streak3, some streak3)
  else
    (streak1, none)

/-- The stored budget document after one `checkAndUpdateStreak` call: the
`updateOne` write replaces the `streak` sub-document when it happens. -/
def applyCheck (budget : UserBudget) (transactions : List BudgetTransaction)
    (today monthStart : ℤ) : UserBudget :=
  match (checkAndUpdateStreak budget transactions today monthStart).2 with
  | some s => { budget with streak := some s }
  | none => budget

/-- The daily spend the streak logic attributes to a calendar day: the sum
of the user's transaction amounts dated within that day. -/
def daySpendOn (transactions : List BudgetTransaction) (date : ℤ) : ℚ :=
  ((transactions.filter (fun t => t.day = date)).map (fun t => t.amount)).sum

/-- One call in a sequence of streak checks: the transactions visible to
the call and the `today`/`monthStart` values derived from its `now`. -/
structure CheckInput where
  transactions : List BudgetTransaction
  today : ℤ
  monthStart : ℤ

/-- The streaks returned by a sequence of `checkAndUpdateStreak` calls,
threading the stored document through the writes. -/
def runChecks : UserBudget → List CheckInput → List StreakState
  | _, [] => []
  | b, i :: is =>
      (checkAndUpdateStreak b i.transactions i.today i.monthStart).1 ::
        runChecks (applyCheck b i.transactions i.today i.monthStart) is

/-- The longest streak stored for a user (`0` before lazy initialization,
matching the value initialization would give it). -/
def longestOf (b : UserBudget) : ℤ :=
  match b.streak with
  | some s => s.longestStreak
  | none => 0

/-! ## Concrete inputs used by the development -/

/-- The worked example of the spec: income 5000 with the canonical
percentage split and no wants subcategories. -/
def exampleInput : BudgetInput :=
  { monthlyIncome := 5000
    categories :=
      { rent := 30, food := 15, bills := 10, savings := 20, investments := 10, wants := 15 } }

/-- An input whose category percentages sum to 135, past the 100 limit. -/
def over100Input : BudgetInput :=
  { monthlyIncome := 5000
    categories :=
      { rent := 50, food := 30, bills := 10, savings := 20, investments := 10, wants := 15 } }

/-- A single zero-amount category, for exercising the analyzer. -/
def wantsZeroCat : BudgetCategory := { name := "Wants", percentage := 15, amount := some 0 }

/-- A small valid budget result holding only `wantsZeroCat`. -/
def oneCatResult : BudgetResult :=
  { monthlyIncome := 100, totalAllocated := 0, unallocated := 100
    categories := [wantsZeroCat], isValid := true }

/-! ## General lemmas about the embedding -/

theorem foldl_amount_eq_sum (l : List BudgetTransaction) (a : ℚ) :
    l.foldl (fun sum t => sum + t.amount) a = a + (l.map (fun t => t.amount)).sum := by
  induction l generalizing a with
  | nil => simp
  | cons t ts ih => simp [ih, add_assoc]

theorem checkDailyBudgetAdherence_iff (b : UserBudget) (txs : List BudgetTransaction) (d : ℤ) :
    checkDailyBudgetAdherence b txs d = true ↔ daySpendOn txs d ≤ b.monthlyIncome / 30 := by
  simp [checkDailyBudgetAdherence, daySpendOn, foldl_amount_eq_sum]

/-! ## Lemmas about the streak state machine -/

theorem checkAndUpdateStreak_no_write_ignores_transactions (b : UserBudget)
    (txs : List BudgetTransaction) (today monthStart : ℤ)
    (h : (checkAndUpdateStreak b txs today monthStart).2 = none)
    (txs2 : List BudgetTransaction) :
    checkAndUpdateStreak b txs2 today monthStart =
      checkAndUpdateStreak b txs today monthStart := by
  simp only [checkAndUpdateStreak] at h ⊢
  split at h
  · simp at h
  · rename_i hcond
    rw [if_neg hcond, if_neg hcond]

theorem checkAndUpdateStreak_write_fields (b : UserBudget)
    (txs : List BudgetTransaction) (today monthStart : ℤ) (w : StreakState)
    (h : (checkAndUpdateStreak b txs today monthStart).2 = some w) :
    (checkAndUpdateStreak b txs today monthStart).1 = w ∧
    w.lastChecked = today ∧ ¬ monthStart > w.monthlyResetDate := by
  rcases hbs : b.streak with _ | s0
  · simp [checkAndUpdateStreak, hbs] at h
  · by_cases hm : monthStart > s0.monthlyResetDate <;>
      by_cases hnew : today > s0.lastChecked <;>
        by_cases hw : checkDailyBudgetAdherence b txs (today - 1) = true <;>
          by_cases hgap : s0.lastChecked < today - 1 <;>
            simp [checkAndUpdateStreak, hbs, hm, hnew, hw, hgap] at h ⊢
    all_goals (subst h; exact ⟨rfl, rfl, by simp_all⟩)

theorem checkAndUpdateStreak_stable (b : UserBudget) (s : StreakState)
    (txs : List BudgetTransaction) (today monthStart : ℤ) (hs : b.streak = some s)
    (hl : ¬ today > s.lastChecked) (hm : ¬ monthStart > s.monthlyResetDate) :
    checkAndUpdateStreak b txs today monthStart = (s, none) := by
  simp [checkAndUpdateStreak, hs, hm, hl]

theorem applyCheck_of_none (b : UserBudget) (txs : List BudgetTransaction)
    (today monthStart : ℤ) (h : (checkAndUpdateStreak b txs today monthStart).2 = none) :
    applyCheck b txs today monthStart = b := by
  simp [applyCheck, h]

theorem applyCheck_of_some (b : UserBudget) (txs : List BudgetTransaction)
    (today monthStart : ℤ) (w : StreakState)
    (h : (checkAndUpdateStreak b txs today monthStart).2 = some w) :
    applyCheck b txs today monthStart = { b with streak := some w } := by
  simp [applyCheck, h]

theorem checkAndUpdateStreak_longest_mono (b : UserBudget) (txs : List BudgetTransaction)
    (today monthStart : ℤ) :
    longestOf b ≤ (checkAndUpdateStreak b txs today monthStart).1.longestStreak := by
  rcases hbs : b.streak with _ | s0
  · simp [longestOf, checkAndUpdateStreak, hbs]
  · simp only [longestOf, checkAndUpdateStreak, hbs]
    by_cases hm : monthStart > s0.monthlyResetDate <;>
      by_cases hnew : today > s0.lastChecked <;>
        by_cases hw : checkDailyBudgetAdherence b txs (today - 1) = true <;>
          by_cases hgap : s0.lastChecked < today - 1 <;>
            simp [hm, hnew, hw, hgap] <;> (try split) <;> omega

theorem checkAndUpdateStreak_result_good (b : UserBudget) (txs : List BudgetTransaction)
    (today monthStart : ℤ)
    (hgood : ∀ s, b.streak = some s → s.currentStreak ≤ s.longestStreak ∧ 0 ≤ s.longestStreak) :
    (checkAndUpdateStreak b txs today monthStart).1.currentStreak ≤
      (checkAndUpdateStreak b txs today monthStart).1.longestStreak ∧
    0 ≤ (checkAndUpdateStreak b txs today monthStart).1.longestStreak := by
  rcases hbs : b.streak with _ | s0
  · simp [checkAndUpdateStreak, hbs]
  · have h0 := hgood s0 hbs
    simp only [checkAndUpdateStreak, hbs]
    by_cases hm : monthStart > s0.monthlyResetDate <;>
      by_cases hnew : today > s0.lastChecked <;>
        by_cases hw : checkDailyBudgetAdherence b txs (today - 1) = true <;>
          by_cases hgap : s0.lastChecked < today - 1 <;>
            simp [hm, hnew, hw, hgap] <;> (try split) <;> omega

theorem applyCheck_longestOf (b : UserBudget) (txs : List BudgetTransaction)
    (today monthStart : ℤ) :
    longestOf (applyCheck b txs today monthStart) =
      (checkAndUpdateStreak b txs today monthStart).1.longestStreak := by
  rcases hw : (checkAndUpdateStreak b txs today monthStart).2 with _ | w
  · rw [applyCheck_of_none b txs today monthStart hw]
    rcases hbs : b.streak with _ | s0
    · simp [longestOf, checkAndUpdateStreak, hbs]
    · simp only [longestOf, checkAndUpdateStreak, hbs] at hw ⊢
      split at hw
      · simp at hw
      · rename_i hcond
        rw [if_neg hcond]
        split <;> rfl
  · obtain ⟨hr, _, _⟩ := checkAndUpdateStreak_write_fields b txs today monthStart w hw
    rw [applyCheck_of_some b txs today monthStart w hw, hr]
    rfl

theorem applyCheck_good (b : UserBudget) (txs : List BudgetTransaction)
    (today monthStart : ℤ)
    (hgood : ∀ s, b.streak = some s → s.currentStreak ≤ s.longestStreak ∧ 0 ≤ s.longestStreak) :
    ∀ s, (applyCheck b txs today monthStart).streak = some s →
      s.currentStreak ≤ s.longestStreak ∧ 0 ≤ s.longestStreak := by
  rcases hw : (checkAndUpdateStreak b txs today monthStart).2 with _ | w
  · rw [applyCheck_of_none b txs today monthStart hw]
    exact hgood
  · obtain ⟨hr, _, _⟩ := checkAndUpdateStreak_write_fields b txs today monthStart w hw
    rw [applyCheck_of_some b txs today monthStart w hw]
    intro s hs
    obtain rfl : w = s := by simpa using hs
    rw [← hr]
    exact checkAndUpdateStreak_result_good b txs today monthStart hgood

theorem runChecks_head_longest (b : UserBudget) (inps : List CheckInput) :
    ∀ y ∈ (runChecks b inps).head?, longestOf b ≤ y.longestStreak := by
  cases inps with
  | nil => simp [runChecks]
  | cons i is =>
    intro y hy
    simp only [runChecks, List.head?_cons, Option.mem_def, Option.some.injEq] at hy
    rw [← hy]
    exact checkAndUpdateStreak_longest_mono b i.transactions i.today i.monthStart

theorem runChecks_chain_aux (inps : List CheckInput) :
    ∀ b : UserBudget,
      (∀ s, b.streak = some s → s.currentStreak ≤ s.longestStreak ∧ 0 ≤ s.longestStreak) →
      List.Chain' (fun x y => x.longestStreak ≤ y.longestStreak) (runChecks b inps) ∧
      ∀ r ∈ runChecks b inps, r.currentStreak ≤ r.longestStreak := by
  induction inps with
  | nil =>
    intro b _
    simp [runChecks]
  | cons i is ih =>
    intro b hgood
    have hb2 := applyCheck_good b i.transactions i.today i.monthStart hgood
    obtain ⟨ihchain, ihall⟩ := ih (applyCheck b i.transactions i.today i.monthStart) hb2
    constructor
    · show List.Chain' _
        ((checkAndUpdateStreak b i.transactions i.today i.monthStart).1 ::
          runChecks (applyCheck b i.transactions i.today i.monthStart) is)
      refine List.chain'_cons'.mpr ⟨?_, ihchain⟩
      intro y hy
      have hhead := runChecks_head_longest
        (applyCheck b i.transactions i.today i.monthStart) is y hy
      rw [applyCheck_longestOf b i.transactions i.today i.monthStart] at hhead
      exact hhead
    · intro r hr
      rcases (by simpa only [runChecks, List.mem_cons] using hr :
          r = (checkAndUpdateStreak b i.transactions i.today i.monthStart).1 ∨
          r ∈ runChecks (applyCheck b i.transactions i.today i.monthStart) is) with h1 | h2
      · rw [h1]
        exact (checkAndUpdateStreak_result_good b i.transactions i.today i.monthStart hgood).1
      · exact ihall r h2

/-- C1: on the first check of a new calendar day for a user with a persisted
streak record, with `dailyBudget = monthlyIncome / 30` and `daySpend` the sum
of the user's transaction amounts timestamped within yesterday: if
`daySpend ≤ dailyBudget` the current streak increases by exactly 1;
otherwise it is reset to 0 when `lastCheckedDate < yesterday`, and left
unchanged when `lastCheckedDate = yesterday`. -/
theorem checkAndUpdateStreak_new_day (b : UserBudget) (txs : List BudgetTransaction)
    (today monthStart : ℤ) (s : StreakState)
    (hs : b.streak = some s) (hnew : s.lastChecked < today) :
    (daySpendOn txs (today - 1) ≤ b.monthlyIncome / 30 →
      (checkAndUpdateStreak b txs today monthStart).1.currentStreak = s.currentStreak + 1) ∧
    (¬ daySpendOn txs (today - 1) ≤ b.monthlyIncome / 30 → s.lastChecked < today - 1 →
      (checkAndUpdateStreak b txs today monthStart).1.currentStreak = 0) ∧
    (¬ daySpendOn txs (today - 1) ≤ b.monthlyIncome / 30 → s.lastChecked = today - 1 →
      (checkAndUpdateStreak b txs today monthStart).1.currentStreak = s.currentStreak) := by
  have hb := checkDailyBudgetAdherence_iff b txs (today - 1)
  refine ⟨fun h => ?_, fun h hgap => ?_, fun h heq => ?_⟩
  · have hw : checkDailyBudgetAdherence b txs (today - 1) = true := hb.mpr h
    simp only [checkAndUpdateStreak, hs, hw]
    rw [if_pos hnew]
    by_cases hm : monthStart > s.monthlyResetDate <;> simp [hm]
  · have hw : checkDailyBudgetAdherence b txs (today - 1) = false := by
      rw [Bool.eq_false_iff]
      intro hc
      exact h (hb.mp hc)
    simp only [checkAndUpdateStreak, hs, hw]
    rw [if_pos hnew]
    by_cases hm : monthStart > s.monthlyResetDate <;> simp [hm, hgap]
  · have hw : checkDailyBudgetAdherence b txs (today - 1) = false := by
      rw [Bool.eq_false_iff]
      intro hc
      exact h (hb.mp hc)
    simp only [checkAndUpdateStreak, hs, hw]
    rw [if_pos hnew]
    have hng : ¬ s.lastChecked < today - 1 := by omega
    by_cases hm : monthStart > s.monthlyResetDate <;> simp [hm, hng]

/-- Witness for C1 at a concrete input: a stored streak last checked on day
9, checked again on day 10 with no transactions. -/
theorem checkAndUpdateStreak_new_day_witness :
    (({ monthlyIncome := 3000, streak := some ⟨5, 7, 9, 100⟩ } : UserBudget).streak =
      some (⟨5, 7, 9, 100⟩ : StreakState)) ∧
    ((⟨5, 7, 9, 100⟩ : StreakState).lastChecked < (10 : ℤ)) ∧
    ((daySpendOn [] ((10 : ℤ) - 1) ≤
        ({ monthlyIncome := 3000, streak := some ⟨5, 7, 9, 100⟩ } : UserBudget).monthlyIncome / 30 →
      (checkAndUpdateStreak { monthlyIncome := 3000, streak := some ⟨5, 7, 9, 100⟩ } [] 10
          100).1.currentStreak =
        (⟨5, 7, 9, 100⟩ : StreakState).currentStreak + 1) ∧
    (¬ daySpendOn [] ((10 : ℤ) - 1) ≤
        ({ monthlyIncome := 3000, streak := some ⟨5, 7, 9, 100⟩ } : UserBudget).monthlyIncome / 30 →
      (⟨5, 7, 9, 100⟩ : StreakState).lastChecked < (10 : ℤ) - 1 →
      (checkAndUpdateStreak { monthlyIncome := 3000, streak := some ⟨5, 7, 9, 100⟩ } [] 10
          100).1.currentStreak = 0) ∧
    (¬ daySpendOn [] ((10 : ℤ) - 1) ≤
        ({ monthlyIncome := 3000, streak := some ⟨5, 7, 9, 100⟩ } : UserBudget).monthlyIncome / 30 →
      (⟨5, 7, 9, 100⟩ : StreakState).lastChecked = (10 : ℤ) - 1 →
      (checkAndUpdateStreak { monthlyIncome := 3000, streak := some ⟨5, 7, 9, 100⟩ } [] 10
          100).1.currentStreak = (⟨5, 7, 9, 100⟩ : StreakState).currentStreak)) :=
  ⟨rfl, by decide,
    checkAndUpdateStreak_new_day { monthlyIncome := 3000, streak := some ⟨5, 7, 9, 100⟩ }
      [] 10 100 ⟨5, 7, 9, 100⟩ rfl (by decide)⟩

/-- C2: across any sequence of check calls starting from the initialized
state (`currentStreak = 0`, `longestStreak = 0`), `longestStreak` never
decreases from one call to the next, and `longestStreak ≥ currentStreak`
holds after every call. -/
theorem runChecks_longest_monotone (b : UserBudget) (s0 : StreakState)
    (inps : List CheckInput) (hs : b.streak = some s0)
    (hc : s0.currentStreak = 0) (hl : s0.longestStreak = 0) :
    List.Chain' (fun x y => x.longestStreak ≤ y.longestStreak) (runChecks b inps) ∧
    ∀ r ∈ runChecks b inps, r.currentStreak ≤ r.longestStreak := by
  refine runChecks_chain_aux inps b ?_
  intro s hsome
  rw [hs] at hsome
  obtain rfl : s0 = s := by simpa using hsome
  omega

/-- Witness for C2 at a concrete input: the zero streak checked twice. -/
theorem runChecks_longest_monotone_witness :
    (({ monthlyIncome := 3000, streak := some ⟨0, 0, 0, 0⟩ } : UserBudget).streak =
      some (⟨0, 0, 0, 0⟩ : StreakState)) ∧
    ((⟨0, 0, 0, 0⟩ : StreakState).currentStreak = 0) ∧
    ((⟨0, 0, 0, 0⟩ : StreakState).longestStreak = 0) ∧
    (List.Chain' (fun x y => x.longestStreak ≤ y.longestStreak)
      (runChecks { monthlyIncome := 3000, streak := some ⟨0, 0, 0, 0⟩ }
        [⟨[], 1, 0⟩, ⟨[], 2, 0⟩]) ∧
    ∀ r ∈ runChecks { monthlyIncome := 3000, streak := some ⟨0, 0, 0, 0⟩ }
        [⟨[], 1, 0⟩, ⟨[], 2, 0⟩], r.currentStreak ≤ r.longestStreak) :=
  ⟨rfl, rfl, rfl,
    runChecks_longest_monotone { monthlyIncome := 3000, streak := some ⟨0, 0, 0, 0⟩ }
      ⟨0, 0, 0, 0⟩ [⟨[], 1, 0⟩, ⟨[], 2, 0⟩] rfl rfl rfl⟩

/-- C3: a second check call on the same calendar day (same `today` and hence
same `monthStart`, whatever transactions are visible to each call) returns
the same `StreakState` as the first call and performs no write on the
stored record. -/
theorem checkAndUpdateStreak_idempotent (b : UserBudget)
    (txs1 txs2 : List BudgetTransaction) (today monthStart : ℤ) :
    (checkAndUpdateStreak (applyCheck b txs1 today monthStart) txs2 today monthStart).1 =
      (checkAndUpdateStreak b txs1 today monthStart).1 ∧
    (checkAndUpdateStreak (applyCheck b txs1 today monthStart) txs2 today monthStart).2 =
      none ∧
    applyCheck (applyCheck b txs1 today monthStart) txs2 today monthStart =
      applyCheck b txs1 today monthStart := by
  rcases hw : (checkAndUpdateStreak b txs1 today monthStart).2 with _ | w
  · have hA := applyCheck_of_none b txs1 today monthStart hw
    have hIg := checkAndUpdateStreak_no_write_ignores_transactions b txs1 today monthStart hw txs2
    rw [hA, hIg]
    exact ⟨rfl, hw, applyCheck_of_none b txs2 today monthStart (by rw [hIg]; exact hw)⟩
  · obtain ⟨hr, hlc, hmr⟩ := checkAndUpdateStreak_write_fields b txs1 today monthStart w hw
    rw [applyCheck_of_some b txs1 today monthStart w hw]
    have hstable := checkAndUpdateStreak_stable { b with streak := some w } w txs2
      today monthStart rfl (by omega) hmr
    refine ⟨?_, ?_, ?_⟩
    · rw [hstable, hr]
    · rw [hstable]
    · exact applyCheck_of_none _ txs2 today monthStart (by rw [hstable])

/-- C4: for a user whose budget document has no streak record, the check
initializes the streak in memory with `lastChecked = today`, so the new-day
branch cannot fire: it returns the all-zero streak anchored at `today` and
`monthStart`, writes nothing to storage, and therefore every subsequent
call again returns the all-zero streak. -/
theorem checkAndUpdateStreak_uninitialized (b : UserBudget)
    (txs txs2 : List BudgetTransaction) (today monthStart t2 m2 : ℤ)
    (h : b.streak = none) :
    (checkAndUpdateStreak b txs today monthStart).1 =
      { currentStreak := 0, longestStreak := 0
        lastChecked := today, monthlyResetDate := monthStart } ∧
    applyCheck b txs today monthStart = b ∧
    (checkAndUpdateStreak (applyCheck b txs today monthStart) txs2 t2 m2).1 =
      { currentStreak := 0, longestStreak := 0
        lastChecked := t2, monthlyResetDate := m2 } := by
  have h1 : (checkAndUpdateStreak b txs today monthStart).1 =
      { currentStreak := 0, longestStreak := 0
        lastChecked := today, monthlyResetDate := monthStart } := by
    simp [checkAndUpdateStreak, h]
  have h2 : applyCheck b txs today monthStart = b := by
    simp [applyCheck, checkAndUpdateStreak, h]
  refine ⟨h1, h2, ?_⟩
  rw [h2]
  simp [checkAndUpdateStreak, h]

/-- Witness for C4 at a concrete input: a budget document with no streak
record, checked on day 10 and again on day 11. -/
theorem checkAndUpdateStreak_uninitialized_witness :
    (({ monthlyIncome := 3000, streak := none } : UserBudget).streak = none) ∧
    ((checkAndUpdateStreak { monthlyIncome := 3000, streak := none } [] 10 1).1 =
      { currentStreak := 0, longestStreak := 0
        lastChecked := 10, monthlyResetDate := 1 } ∧
    applyCheck { monthlyIncome := 3000, streak := none } [] 10 1 =
      { monthlyIncome := 3000, streak := none } ∧
    (checkAndUpdateStreak (applyCheck { monthlyIncome := 3000, streak := none } [] 10 1)
        [] 11 1).1 =
      { currentStreak := 0, longestStreak := 0
        lastChecked := 11, monthlyResetDate := 1 }) :=
  ⟨rfl, checkAndUpdateStreak_uninitialized { monthlyIncome := 3000, streak := none }
    [] [] 10 1 11 1 rfl⟩

/-! ## Lemmas about the spending analyzer -/

theorem statusFor_eq_over_iff (p : ℚ) : statusFor p = "over" ↔ 100 ≤ p := by
  unfold statusFor
  split_ifs with h1 h2 <;> simp_all

theorem statusFor_eq_at_iff (p : ℚ) : statusFor p = "at" ↔ 95 ≤ p ∧ p < 100 := by
  unfold statusFor
  split_ifs with h1 h2 <;> simp_all <;> try linarith

theorem statusFor_eq_under_iff (p : ℚ) : statusFor p = "under" ↔ p < 95 := by
  unfold statusFor
  split_ifs with h1 h2 <;> simp_all <;> try linarith

theorem mem_categories_of_analysis (txs : List BudgetTransaction) (br : BudgetResult)
    (row : CategorySpending)
    (hrow : row ∈ (calculateCategorySpending txs br).categories) :
    ∃ cat ∈ br.categories, analyzeCategory (tallySpending txs) cat = row := by
  simpa [calculateCategorySpending] using hrow

/-- C8: for every category row produced by the analyzer, `status` is
`"over"` iff `percentageUsed ≥ 100`, `"at"` iff `percentageUsed ∈ [95, 100)`
and `"under"` otherwise, with `percentageUsed = spent/budget × 100` when
`budget > 0` and `0` when `budget = 0`; in particular `spent` equal to a
positive `budget` gives `"over"`, and a zero budget gives `"under"`. -/
theorem calculateCategorySpending_status_bands (txs : List BudgetTransaction)
    (br : BudgetResult) (row : CategorySpending)
    (hrow : row ∈ (calculateCategorySpending txs br).categories) :
    (row.status = "over" ↔ 100 ≤ row.percentageUsed) ∧
    (row.status = "at" ↔ 95 ≤ row.percentageUsed ∧ row.percentageUsed < 100) ∧
    (row.status = "under" ↔ row.percentageUsed < 95) ∧
    (0 < row.budget → row.percentageUsed = row.spent / row.budget * 100) ∧
    (row.budget = 0 → row.percentageUsed = 0 ∧ row.status = "under") ∧
    (0 < row.budget → row.spent = row.budget → row.status = "over") := by
  obtain ⟨cat, hcat, rfl⟩ := mem_categories_of_analysis txs br row hrow
  refine ⟨statusFor_eq_over_iff _, statusFor_eq_at_iff _, statusFor_eq_under_iff _,
    ?_, ?_, ?_⟩
  · intro hb
    simp only [analyzeCategory] at hb ⊢
    rw [if_pos hb]
  · intro hb
    simp only [analyzeCategory] at hb ⊢
    rw [hb]
    norm_num [statusFor]
  · intro hb heq
    simp only [analyzeCategory] at hb heq ⊢
    rw [if_pos hb, heq, div_self (ne_of_gt hb)]
    norm_num [statusFor]

/-- Witness for C8 at a concrete input: the single category row of
`oneCatResult` analyzed against no transactions. -/
theorem calculateCategorySpending_status_bands_witness :
    (analyzeCategory (tallySpending []) wantsZeroCat ∈
      (calculateCategorySpending [] oneCatResult).categories) ∧
    (((analyzeCategory (tallySpending []) wantsZeroCat).status = "over" ↔
      100 ≤ (analyzeCategory (tallySpending []) wantsZeroCat).percentageUsed) ∧
    ((analyzeCategory (tallySpending []) wantsZeroCat).status = "at" ↔
      95 ≤ (analyzeCategory (tallySpending []) wantsZeroCat).percentageUsed ∧
      (analyzeCategory (tallySpending []) wantsZeroCat).percentageUsed < 100) ∧
    ((analyzeCategory (tallySpending []) wantsZeroCat).status = "under" ↔
      (analyzeCategory (tallySpending []) wantsZeroCat).percentageUsed < 95) ∧
    (0 < (analyzeCategory (tallySpending []) wantsZeroCat).budget →
      (analyzeCategory (tallySpending []) wantsZeroCat).percentageUsed =
        (analyzeCategory (tallySpending []) wantsZeroCat).spent /
          (analyzeCategory (tallySpending []) wantsZeroCat).budget * 100) ∧
    ((analyzeCategory (tallySpending []) wantsZeroCat).budget = 0 →
      (analyzeCategory (tallySpending []) wantsZeroCat).percentageUsed = 0 ∧
      (analyzeCategory (tallySpending []) wantsZeroCat).status = "under") ∧
    (0 < (analyzeCategory (tallySpending []) wantsZeroCat).budget →
      (analyzeCategory (tallySpending []) wantsZeroCat).spent =
        (analyzeCategory (tallySpending []) wantsZeroCat).budget →
      (analyzeCategory (tallySpending []) wantsZeroCat).status = "over")) := by
  have hm : analyzeCategory (tallySpending []) wantsZeroCat ∈
      (calculateCategorySpending [] oneCatResult).categories := by
    simp [calculateCategorySpending, oneCatResult]
  exact ⟨hm, calculateCategorySpending_status_bands [] oneCatResult
    (analyzeCategory (tallySpending []) wantsZeroCat) hm⟩

theorem addToCategory_total (s : SpendingByCategory) (key : String) (amt : ℚ) :
    totalOfSpending (addToCategory s key amt) = totalOfSpending s + amt := by
  unfold addToCategory totalOfSpending
  split_ifs <;> simp <;> ring

theorem addToCategory_wants (s : SpendingByCategory) (key : String) (amt : ℚ) :
    (addToCategory s key amt).wants =
      s.wants +
        (if key ∈ (["rent", "food", "bills", "savings", "investments"] : List String) then 0
         else amt) := by
  unfold addToCategory
  split_ifs with h1 h2 h3 h4 h5 h6 <;> simp_all

theorem tallySpending_total_aux (txs : List BudgetTransaction) :
    ∀ s : SpendingByCategory,
      totalOfSpending
          (txs.foldl (fun s t => addToCategory s (lowerStr t.category) t.amount) s) =
        totalOfSpending s + (txs.map (fun t => t.amount)).sum := by
  induction txs with
  | nil => simp
  | cons t ts ih =>
    intro s
    simp only [List.foldl_cons, List.map_cons, List.sum_cons, ih, addToCategory_total]
    ring

theorem tallySpending_wants_aux (txs : List BudgetTransaction) :
    ∀ s : SpendingByCategory,
      (txs.foldl (fun s t => addToCategory s (lowerStr t.category) t.amount) s).wants =
        s.wants +
          ((txs.filter (fun t =>
              decide (lowerStr t.category ∉
                (["rent", "food", "bills", "savings", "investments"] : List String)))).map
            (fun t => t.amount)).sum := by
  induction txs with
  | nil => simp
  | cons t ts ih =>
    intro s
    by_cases h : lowerStr t.category ∈
        (["rent", "food", "bills", "savings", "investments"] : List String)
    · simp only [List.foldl_cons, ih, addToCategory_wants, List.filter_cons,
        if_pos h, decide_eq_true_eq, h, not_true_eq_false]
      simp [h]
    · simp only [List.foldl_cons, ih, addToCategory_wants, List.filter_cons, if_neg h]
      simp [h]
      ring

/-- C9: no transaction is dropped: `totalSpent` is the sum of all transaction
amounts, and every transaction whose lower-cased category is not one of the
five non-wants canonical keys is attributed to the `wants` bucket. -/
theorem calculateCategorySpending_total_and_wants_fallback
    (txs : List BudgetTransaction) (br : BudgetResult) :
    (calculateCategorySpending txs br).totalSpent = (txs.map (fun t => t.amount)).sum ∧
    (tallySpending txs).wants =
      ((txs.filter (fun t =>
          decide (lowerStr t.category ∉
            (["rent", "food", "bills", "savings", "investments"] : List String)))).map
        (fun t => t.amount)).sum := by
  constructor
  · show totalOfSpending (tallySpending txs) = _
    unfold tallySpending
    rw [tallySpending_total_aux]
    simp [totalOfSpending]
  · unfold tallySpending
    rw [tallySpending_wants_aux]
    simp

/-- C10: analyzing the empty transaction list gives `totalSpent = 0`, status
`"under"` for every category and no over-budget categories, for any valid
budget result (all divisions are guarded, degrading to `0`). -/
theorem calculateCategorySpending_empty (br : BudgetResult) (hv : br.isValid = true) :
    (calculateCategorySpending [] br).totalSpent = 0 ∧
    (∀ row ∈ (calculateCategorySpending [] br).categories, row.status = "under") ∧
    (calculateCategorySpending [] br).overBudgetCategories = [] := by
  have hstatus : ∀ cat : BudgetCategory,
      (analyzeCategory (tallySpending []) cat).status = "under" := by
    intro cat
    have hspent : lookupSpending (tallySpending []) (stripSlash (lowerStr cat.name)) = 0 := by
      unfold tallySpending lookupSpending
      split_ifs <;> rfl
    have hpu : (if (cat.amount.getD 0) > 0 then
        lookupSpending (tallySpending []) (stripSlash (lowerStr cat.name)) /
          (cat.amount.getD 0) * 100 else 0) = 0 := by
      rw [hspent]
      split <;> simp
    simp only [analyzeCategory, hpu]
    norm_num [statusFor]
  refine ⟨?_, ?_, ?_⟩
  · show totalOfSpending (tallySpending []) = 0
    norm_num [tallySpending, totalOfSpending]
  · intro row hrow
    obtain ⟨cat, hcat, rfl⟩ := mem_categories_of_analysis [] br row hrow
    exact hstatus cat
  · show ((br.categories.map (analyzeCategory (tallySpending []))).filter
        (fun cat => cat.status = "over")).map (fun cat => cat.category) = []
    rw [List.filter_eq_nil_iff.mpr]
    · rfl
    · intro a ha
      obtain ⟨cat, hcat, rfl⟩ := List.mem_map.mp ha
      rw [hstatus cat]
      decide

/-- Witness for C10 at a concrete input: the valid result `oneCatResult`. -/
theorem calculateCategorySpending_empty_witness :
    oneCatResult.isValid = true ∧
    ((calculateCategorySpending [] oneCatResult).totalSpent = 0 ∧
    (∀ row ∈ (calculateCategorySpending [] oneCatResult).categories,
      row.status = "under") ∧
    (calculateCategorySpending [] oneCatResult).overBudgetCategories = []) :=
  ⟨rfl, calculateCategorySpending_empty oneCatResult rfl⟩

/-- C7: the worked example: income 5000 with percentages
rent 30 / food 15 / bills 10 / savings 20 / investments 10 / wants 15 and no
wants subcategories allocates 1500.00 to rent and 750.00 to wants, with
`totalAllocated = 5000.00`, `unallocated = 0.00` and `isValid = true`. -/
theorem calculateBudget_spec_example :
    (calculateBudget exampleInput).isValid = true ∧
    ((calculateBudget exampleInput).categories.map (fun c => c.name)) =
      ["Rent/Mortgage", "Food", "Bills", "Savings", "Investments", "Wants"] ∧
    ((calculateBudget exampleInput).categories.map (fun c => c.amount.getD 0)) =
      [1500, 750, 500, 1000, 500, 750] ∧
    (calculateBudget exampleInput).totalAllocated = 5000 ∧
    (calculateBudget exampleInput).unallocated = 0 := by
  norm_num [calculateBudget, calculateBudgetErrors, exampleInput,
    validateBudgetPercentages, categoryEntryErrors, round2]

/-! ## Lemmas about the budget calculator -/

theorem abs_round2_sub_le (x : ℚ) : |round2 x - x| ≤ 1/200 := by
  unfold round2
  have h1 := Int.floor_le (x * 100 + 1/2)
  have h2 := Int.lt_floor_add_one (x * 100 + 1/2)
  rw [abs_le]
  constructor <;> linarith

theorem round2_cents (x : ℚ) : ∃ k : ℤ, round2 x = (k : ℚ)/100 :=
  ⟨⌊x * 100 + 1/2⌋, rfl⟩

theorem round2_idem_div (k : ℤ) : round2 ((k : ℚ)/100) = (k : ℚ)/100 := by
  unfold round2
  have h1 : (k : ℚ)/100 * 100 + 1/2 = (k : ℚ) + 1/2 := by
    field_simp
  rw [h1]
  have h2 : ⌊(k : ℚ) + 1/2⌋ = k := by
    rw [add_comm, Int.floor_add_int]
    norm_num
  rw [h2]

theorem validateBudgetPercentages_total_mem (c : BudgetInputCategories)
    (h : 100 < c.rent + c.food + c.bills + c.savings + c.investments + c.wants) :
    ("Total percentage (" ++
        toString (c.rent + c.food + c.bills + c.savings + c.investments + c.wants) ++
        "%) exceeds 100%") ∈ (validateBudgetPercentages c).errors := by
  simp only [validateBudgetPercentages]
  rw [if_pos h]
  simp

theorem validation_isValid_false_of_mem (c : BudgetInputCategories) (e : String)
    (h : e ∈ (validateBudgetPercentages c).errors) :
    (validateBudgetPercentages c).isValid = false := by
  have hrfl : (validateBudgetPercentages c).isValid =
      (validateBudgetPercentages c).errors.isEmpty := rfl
  rcases hL : (validateBudgetPercentages c).errors with _ | ⟨a, as⟩
  · rw [hL] at h
    simp at h
  · rw [hrfl, hL]
    rfl

theorem mentions100_total_msg (t : String) :
    mentions100 ("Total percentage (" ++ t ++ "%) exceeds 100%") := by
  refine ⟨"Total percentage (" ++ t ++ "%) exceeds ", "", ?_⟩
  rw [String.append_empty]
  symm
  rw [String.append_assoc]
  rfl

/-- C5: whenever the six category percentages sum to more than 100,
`calculateBudget` returns `isValid = false`, an error mentioning `"100%"`,
an empty category list and zero totals. -/
theorem calculateBudget_invalid_over100 (input : BudgetInput)
    (h : 100 < input.categories.rent + input.categories.food + input.categories.bills +
      input.categories.savings + input.categories.investments + input.categories.wants) :
    (calculateBudget input).isValid = false ∧
    (∃ e ∈ (calculateBudget input).errors, mentions100 e) ∧
    (calculateBudget input).categories = [] ∧
    (calculateBudget input).totalAllocated = 0 ∧
    (calculateBudget input).unallocated = 0 := by
  have hmem := validateBudgetPercentages_total_mem input.categories h
  have hcv := validation_isValid_false_of_mem input.categories _ hmem
  have hmemE : ("Total percentage (" ++
      toString (input.categories.rent + input.categories.food + input.categories.bills +
        input.categories.savings + input.categories.investments + input.categories.wants) ++
      "%) exceeds 100%") ∈ calculateBudgetErrors input := by
    simp only [calculateBudgetErrors, hcv, Bool.false_eq_true, if_false]
    exact List.mem_append_left _ (List.mem_append_right _ hmem)
  have hpos : (calculateBudgetErrors input).length > 0 :=
    List.length_pos.mpr (List.ne_nil_of_mem hmemE)
  simp only [calculateBudget]
  rw [if_pos hpos]
  exact ⟨rfl, ⟨_, hmemE, mentions100_total_msg _⟩, rfl, rfl, rfl⟩

/-- Witness for C5 at a concrete input: percentages summing to 135. -/
theorem calculateBudget_invalid_over100_witness :
    (100 < over100Input.categories.rent + over100Input.categories.food +
      over100Input.categories.bills + over100Input.categories.savings +
      over100Input.categories.investments + over100Input.categories.wants) ∧
    ((calculateBudget over100Input).isValid = false ∧
    (∃ e ∈ (calculateBudget over100Input).errors, mentions100 e) ∧
    (calculateBudget over100Input).categories = [] ∧
    (calculateBudget over100Input).totalAllocated = 0 ∧
    (calculateBudget over100Input).unallocated = 0) :=
  ⟨by norm_num [over100Input],
    calculateBudget_invalid_over100 over100Input (by norm_num [over100Input])⟩

/-- C6: for every valid budget result, the top-level category amounts sum to
`totalAllocated`, and `totalAllocated + unallocated` recovers
`monthlyIncome`, within one cent per category (six categories). -/
theorem calculateBudget_totals_within_tolerance (input : BudgetInput)
    (hv : (calculateBudget input).isValid = true) :
    |sumAmounts (calculateBudget input).categories -
      (calculateBudget input).totalAllocated| ≤ 6 * (1/100) ∧
    |(calculateBudget input).totalAllocated + (calculateBudget input).unallocated -
      input.monthlyIncome| ≤ 6 * (1/100) := by
  simp only [calculateBudget] at hv ⊢
  split at hv
  · exact absurd hv (by simp)
  · rename_i hcond
    rw [if_neg hcond]
    simp only [sumAmounts, List.map_append, List.map_cons, List.map_nil,
      Option.getD_some, List.sum_append, List.sum_cons, List.sum_nil,
      List.foldl_append, List.foldl_cons, List.foldl_nil]
    obtain ⟨k1, e1⟩ := round2_cents (input.monthlyIncome * input.categories.rent / 100)
    obtain ⟨k2, e2⟩ := round2_cents (input.monthlyIncome * input.categories.food / 100)
    obtain ⟨k3, e3⟩ := round2_cents (input.monthlyIncome * input.categories.bills / 100)
    obtain ⟨k4, e4⟩ := round2_cents (input.monthlyIncome * input.categories.savings / 100)
    obtain ⟨k5, e5⟩ := round2_cents (input.monthlyIncome * input.categories.investments / 100)
    obtain ⟨k6, e6⟩ := round2_cents (input.monthlyIncome * input.categories.wants / 100)
    rw [e1, e2, e3, e4, e5, e6]
    have hsum : (0 : ℚ) + (k1 : ℚ)/100 + (k2 : ℚ)/100 + (k3 : ℚ)/100 + (k4 : ℚ)/100 +
        (k5 : ℚ)/100 + (k6 : ℚ)/100 = ((k1 + k2 + k3 + k4 + k5 + k6 : ℤ) : ℚ)/100 := by
      push_cast
      ring
    rw [hsum, round2_idem_div]
    have habs := abs_round2_sub_le
      (input.monthlyIncome - ((k1 + k2 + k3 + k4 + k5 + k6 : ℤ) : ℚ)/100)
    rw [abs_le] at habs
    constructor
    · rw [abs_le]
      constructor <;> push_cast <;> linarith
    · rw [abs_le]
      constructor <;> push_cast at habs ⊢ <;> linarith

/-- Witness for C6 at a concrete input: the spec's 5000-income example. -/
theorem calculateBudget_totals_within_tolerance_witness :
    (calculateBudget exampleInput).isValid = true ∧
    (|sumAmounts (calculateBudget exampleInput).categories -
      (calculateBudget exampleInput).totalAllocated| ≤ 6 * (1/100) ∧
    |(calculateBudget exampleInput).totalAllocated +
      (calculateBudget exampleInput).unallocated -
      exampleInput.monthlyIncome| ≤ 6 * (1/100)) :=
  ⟨by norm_num [calculateBudget, calculateBudgetErrors, exampleInput,
      validateBudgetPercentages, categoryEntryErrors, round2],
    calculateBudget_totals_within_tolerance exampleInput
      (by norm_num [calculateBudget, calculateBudgetErrors, exampleInput,
        validateBudgetPercentages, categoryEntryErrors, round2])⟩

end Spec2Proof
